import Mathlib

/-!
Verification development for the CveMate NVD synchronization engine.

Shallow embedding of src/datasources/nvd_handler.py (class NvdHandler) and
the snapshot writer src/handlers/utils.py (write2json).  Pure data flow is
modelled directly; the MongoDB collaborator is modelled as a trace of the
store operations the handler issues, in the order it issues them; HTTP
responses are modelled as explicit values fed to the request path.
-/

/-- A vulnerability record, opaque to the engine (the unwrapped value of the
cve envelope key).  `emptyRecord` stands for the empty dict default of
`vul.get` with key cve. -/
abbrev Record := Nat

def emptyRecord : Record := 0

/-- A decoded JSON response body of the NVD listing endpoint.
`vulnerabilities = none` models a JSON object in which the envelope key
vulnerabilities is absent — `data.get` then falls back to the empty list. -/
structure PageData where
  totalResults : Nat
  vulnerabilities : Option (List (Option Record))
deriving DecidableEq, Repr

/-- An HTTP response body: either one that `response.json()` decodes, or one
on which it raises ValueError. -/
inductive Body where
  | json (d : PageData)
  | notJson
deriving DecidableEq, Repr

structure HttpResponse where
  status : Nat
  body : Body
deriving DecidableEq, Repr

/-- Structured view of the two exceptions raised inside
`_make_request_limited`: `Exception` on a non-200 status (message carries the
status code and the full URL) and `ValueError` on an undecodable body
(message carries the full URL). -/
inductive FetchError where
  | httpError (status : Nat) (url : String)
  | parseError (url : String)
deriving DecidableEq, Repr

/-- Operations issued against the MongodbHandler collaborator, recorded as a
trace in issue order. -/
inductive StoreOp where
  | insertMany (coll : String) (records : List Record)
  | bulkWrite (coll : String) (records : List Record)
  | updateStatus (source : String)
  | ensureIndex (coll : String) (field : String)
deriving DecidableEq, Repr

abbrev Trace := List StoreOp

instance {ε α : Type} [DecidableEq ε] [DecidableEq α] : DecidableEq (Except ε α) :=
  fun a b =>
    match a, b with
    | .ok x, .ok y =>
      if h : x = y then isTrue (by rw [h])
      else isFalse (fun hc => h (Except.ok.inj hc))
    | .error e, .error f =>
      if h : e = f then isTrue (by rw [h])
      else isFalse (fun hc => h (Except.error.inj hc))
    | .ok _, .error _ => isFalse (fun hc => Except.noConfusion hc)
    | .error _, .ok _ => isFalse (fun hc => Except.noConfusion hc)

/-- Configuration fields of NvdHandler read in `__init__` from the nvd
section (with their defaults as in the source). -/
structure Config where
  baseurl : String := "https://services.nvd.nist.gov/rest/json/cves/2.0"
  api_key : String := ""
  public_rate_limit : Nat := 5
  api_rate_limit : Nat := 50
  rolling_window : Nat := 30
  retry_limit : Nat := 3
  retry_delay : Nat := 10
  results_per_page : Nat := 2000
  max_threads : Nat := 10
  save_data : Bool := false
deriving DecidableEq, Repr

/-- The `calls` argument of the rate-limit decorator on
`_make_request_limited`: the source always passes `self.api_rate_limit`. -/
def rateLimitCalls (cfg : Config) : Nat :=
  cfg.api_rate_limit

/-- The `period` argument of the rate-limit decorator: `self.rolling_window`. -/
def rateLimitPeriod (cfg : Config) : Nat :=
  cfg.rolling_window

/-- Modelled from the spec: the rate-limit profile the spec says the
orchestrator selects at construction — the lower public limit when no
credential token is configured, the higher limit when one is. -/
def specSelectedRateLimit (cfg : Config) : Nat :=
  if cfg.api_key = "" then cfg.public_rate_limit else cfg.api_rate_limit

/-- Request parameters of one call of `_make_request_limited`:
`resultsPerPage` and `startIndex` always, the two window filter fields only
when `custom_params` supplies them (get_updates). -/
structure RequestParams where
  resultsPerPage : Nat
  startIndex : Nat
  lastModStartDate : Option String
  lastModEndDate : Option String
deriving DecidableEq, Repr

/-- The full request URL built for diagnostics from the base URL and the
parameters, in the insertion order of the params dict. -/
def fullUrl (baseurl : String) (p : RequestParams) : String :=
  baseurl ++ "?resultsPerPage=" ++ toString p.resultsPerPage
    ++ "&startIndex=" ++ toString p.startIndex
    ++ (match p.lastModStartDate with
        | some s => "&lastModStartDate=" ++ s
        | none => "")
    ++ (match p.lastModEndDate with
        | some e => "&lastModEndDate=" ++ e
        | none => "")

/-- The fetch-and-decode step of `_make_request_limited` applied to the
response of the GET request: a status other than 200 raises with the status
and the full URL; otherwise `response.json()` either decodes the body or
raises with the URL. -/
def fetchDecode (url : String) (resp : HttpResponse) : Except FetchError PageData :=
  if resp.status ≠ 200 then
    .error (.httpError resp.status url)
  else
    match resp.body with
    | .json d => .ok d
    | .notJson => .error (.parseError url)

/-- The list bound to `vulnerabilities` in make_request: `data.get` with key
vulnerabilities and default empty list, each element unwrapped by `vul.get`
with key cve and default empty dict. -/
def decodedRecords (data : PageData) : List Record :=
  (data.vulnerabilities.getD []).map (fun vul => vul.getD emptyRecord)

/-- Python str.lower on the ASCII step strings: lowercase every character. -/
def strLower (s : String) : String :=
  String.mk (s.data.map Char.toLower)

/-- The persistence tail of make_request: when the decoded record list is
non-empty, an insert_many (step init, case-insensitively) or bulk_write on
the cve collection followed by update_status on source nvd; otherwise no
store operation at all. -/
def persistPage (step : String) (data : PageData) : Trace :=
  let vulnerabilities := decodedRecords data
  if vulnerabilities = [] then []
  else
    (if strLower step = "init"
      then [StoreOp.insertMany "cve" vulnerabilities]
      else [StoreOp.bulkWrite "cve" vulnerabilities])
    ++ [StoreOp.updateStatus "nvd"]

/-- make_request as a whole, on a given response of its single GET request:
an error of the fetch-and-decode step propagates; on success the persistence
trace is emitted and the decoded data is returned to the caller. -/
def make_request (step : String) (url : String) (resp : HttpResponse) :
    Except FetchError (Trace × PageData) :=
  match fetchDecode url resp with
  | .error e => .error e
  | .ok data => .ok (persistPage step data, data)

/-- num_pages of download_all_data:
`(total_results + self.results_per_page - 1) // self.results_per_page`. -/
def num_pages (total_results results_per_page : Nat) : Nat :=
  (total_results + results_per_page - 1) / results_per_page

/-- Python `range a b`: the ascending integers from `a` up to but excluding
`b`, empty when `b ≤ a`. -/
def pyRange (a b : Nat) : List Nat :=
  List.range' a (b - a)

/-- The start indices of all requests download_all_data issues: the seed
call of make_request (default `start_index=0`) followed by the submitted
tasks with `start_index * self.results_per_page` for `start_index` in
`range 1 num_pages`. -/
def download_requests (results_per_page total_results : Nat) : List Nat :=
  0 :: (pyRange 1 (num_pages total_results results_per_page)).map
    (fun start_index => start_index * results_per_page)

/-- Python truthiness of the `last_hours` argument: None and 0 are falsy,
every other integer is truthy. -/
def pyTruthy : Option Int → Bool
  | none => false
  | some h => decide (h ≠ 0)

/-- The window start computed by get_updates, on timestamps measured in whole
seconds (UTC): `now_utc - timedelta(hours=last_hours)` when `last_hours` is
truthy, else the stored last update time when one exists, else
`now_utc - timedelta(hours=24)`. -/
def lastModStartDate (last_hours : Option Int) (last_update_time : Option Int)
    (now_utc : Int) : Int :=
  if pyTruthy last_hours then
    now_utc - (last_hours.getD 0) * 3600
  else
    match last_update_time with
    | some t => t
    | none => now_utc - 24 * 3600

def pad2 (n : Nat) : String :=
  if n < 10 then "0" ++ toString n else toString n

/-- Civil date (year, month, day) of a day count since 1970-01-01, for
nonnegative day counts (get_updates formats only current times). -/
def civilFromDays (days : Nat) : Nat × Nat × Nat :=
  let z := days + 719468
  let era := z / 146097
  let doe := z % 146097
  let yoe := (doe - doe / 1460 + doe / 36524 - doe / 146096) / 365
  let doy := doe - (365 * yoe + yoe / 4 - yoe / 100)
  let mp := (5 * doy + 2) / 153
  let d := doy - (153 * mp + 2) / 5 + 1
  let m := if mp < 10 then mp + 3 else mp - 9
  (yoe + era * 400 + (if m ≤ 2 then 1 else 0), m, d)

/-- strftime with the fixed-precision pattern of get_updates
(year-month-day, letter T, hour:minute:second, letter Z), on a timestamp in
whole seconds since the epoch. -/
def strftimeNvd (t : Int) : String :=
  let s := t.toNat
  let c := civilFromDays (s / 86400)
  let secs := s % 86400
  toString c.1 ++ "-" ++ pad2 c.2.1 ++ "-" ++ pad2 c.2.2 ++ "T"
    ++ pad2 (secs / 3600) ++ ":" ++ pad2 (secs % 3600 / 60) ++ ":"
    ++ pad2 (secs % 60) ++ "Z"

/-- The formatted window bounds of get_updates: start from
`lastModStartDate`, end always `now_utc`. -/
def get_updates_window (last_hours last_update_time : Option Int)
    (now_utc : Int) : String × String :=
  (strftimeNvd (lastModStartDate last_hours last_update_time now_utc),
   strftimeNvd now_utc)

/-- The single request get_updates issues: default `start_index=0` of
make_request with the window filters as `custom_params`. -/
def get_updates_request (cfg : Config) (last_hours last_update_time : Option Int)
    (now_utc : Int) : RequestParams :=
  let window := get_updates_window last_hours last_update_time now_utc
  { resultsPerPage := cfg.results_per_page
    startIndex := 0
    lastModStartDate := some window.1
    lastModEndDate := some window.2 }

/-- All requests issued by one run of get_updates: exactly the one call of
make_request. -/
def get_updates_requests (cfg : Config) (last_hours last_update_time : Option Int)
    (now_utc : Int) : List RequestParams :=
  [get_updates_request cfg last_hours last_update_time now_utc]

/-- One run of get_updates against a response oracle mapping each request to
the HTTP response the source returns for it: a single make_request with the
window params and the default step update. -/
def get_updates_run (cfg : Config) (last_hours last_update_time : Option Int)
    (now_utc : Int) (oracle : RequestParams → HttpResponse) :
    Except FetchError (Trace × PageData) :=
  make_request "update"
    (fullUrl cfg.baseurl (get_updates_request cfg last_hours last_update_time now_utc))
    (oracle (get_updates_request cfg last_hours last_update_time now_utc))

/-- The store trace of the fan-out loop of download_all_data, with the task
outcomes listed in completion order: every task that completed successfully
has already run its persistence inside make_request with step init (the
executor shutdown lets submitted tasks finish), an errored task persisted
nothing. -/
def fanoutTrace (outcomes : List (Except FetchError PageData)) : Trace :=
  match outcomes with
  | [] => []
  | x :: rest =>
    (match x with
     | .ok data => persistPage "init" data
     | .error _ => []) ++ fanoutTrace rest

/-- The error the fan-out loop of download_all_data surfaces: the loop over
as_completed re-raises the exception of the first errored future it reaches
(completion order); with no errored task it falls through normally. -/
def fanoutError (outcomes : List (Except FetchError PageData)) : Option FetchError :=
  match outcomes with
  | [] => none
  | x :: rest =>
    match x with
    | .ok _ => fanoutError rest
    | .error e => some e

/-- The record list written by download_all_data to the snapshot file when
save_data is set: all_vulnerabilities starts empty and is extended, in the
fan-out loop only, with the raw vulnerabilities list of each future result;
initial_vulnerabilities of the seed response feeds only the progress bar. -/
def download_all_data_snapshot (initial_response : PageData)
    (later_pages : List PageData) : List (Option Record) :=
  let _initial_vulnerabilities := initial_response.vulnerabilities.getD []
  later_pages.foldl (fun acc data => acc ++ data.vulnerabilities.getD []) []

/-- Concrete configuration with a page size of 2 and otherwise the source
defaults (in particular no API key). -/
def cfgSmall : Config :=
  { results_per_page := 2 }

/-- A first page of a result set of 5 records with page size 2: two records
delivered, three pages in total. -/
def pageFive : PageData :=
  ⟨5, some [some 1, some 2]⟩

/-- A source oracle answering every request with `pageFive`. -/
def oracleFive : RequestParams → HttpResponse :=
  fun _ => ⟨200, Body.json pageFive⟩

/-- C1 counterexample: an incremental run whose window holds 5 records at a
page size of 2 (3 pages) issues exactly one request and persists only the 2
records of the first page — it does not fetch every page. -/
theorem C1_counterexample :
    get_updates_run cfgSmall none none 0 oracleFive
      = .ok ([StoreOp.bulkWrite "cve" [1, 2], StoreOp.updateStatus "nvd"], pageFive)
    ∧ pageFive.totalResults = 5
    ∧ num_pages pageFive.totalResults cfgSmall.results_per_page = 3
    ∧ (get_updates_requests cfgSmall none none 0).length = 1 := by
  decide

/-- C1 (amended): get_updates is not paginated — it issues exactly one
request, at start index 0 with the window filters, and persists exactly the
records decoded from that single response, whatever totalResults reports. -/
theorem get_updates_single_page (cfg : Config)
    (last_hours last_update_time : Option Int) (now_utc : Int)
    (oracle : RequestParams → HttpResponse) (data : PageData)
    (hfetch : fetchDecode
      (fullUrl cfg.baseurl (get_updates_request cfg last_hours last_update_time now_utc))
      (oracle (get_updates_request cfg last_hours last_update_time now_utc)) = .ok data) :
    get_updates_run cfg last_hours last_update_time now_utc oracle
      = .ok (persistPage "update" data, data)
    ∧ (get_updates_requests cfg last_hours last_update_time now_utc).length = 1
    ∧ (get_updates_request cfg last_hours last_update_time now_utc).startIndex = 0 := by
  refine ⟨?_, rfl, rfl⟩
  unfold get_updates_run make_request
  rw [hfetch]

theorem get_updates_single_page_witness :
    get_updates_run cfgSmall none none 0 oracleFive
      = .ok (persistPage "update" pageFive, pageFive)
    ∧ (get_updates_requests cfgSmall none none 0).length = 1
    ∧ (get_updates_request cfgSmall none none 0).startIndex = 0 :=
  get_updates_single_page cfgSmall none none 0 oracleFive pageFive (by decide)

/-- C2 counterexample: during a full load, persisting one non-empty page
(step init, as the fan-out tasks do) already issues an update of the nvd
status — a checkpoint write happens per page, and full load does update the
checkpoint. -/
theorem C2_counterexample :
    fanoutTrace [.ok ⟨1, some [some 7]⟩]
      = [StoreOp.insertMany "cve" [7], StoreOp.updateStatus "nvd"]
    ∧ StoreOp.updateStatus "nvd" ∈ fanoutTrace [.ok ⟨1, some [some 7]⟩] := by
  decide

/-- C2 (amended): the nvd status is updated by exactly the page persists
whose decoded record list is non-empty — in either mode (any step), as part
of persisting that page, not once at the end of a run. -/
theorem updateStatus_iff_nonempty_page (step : String) (data : PageData) :
    StoreOp.updateStatus "nvd" ∈ persistPage step data
      ↔ decodedRecords data ≠ [] := by
  unfold persistPage
  by_cases h : decodedRecords data = [] <;> simp [h]

theorem updateStatus_iff_nonempty_page_witness :
    StoreOp.updateStatus "nvd" ∈ persistPage "init" pageFive :=
  (updateStatus_iff_nonempty_page "init" pageFive).mpr (by decide)

/-- C3: with no API key configured, the rate-limit decorator still receives
`api_rate_limit` (50 by default), not the configured `public_rate_limit`
(5): the public profile is read in `__init__` but never applied. -/
theorem C3_rate_limit_ignores_credential :
    rateLimitCalls cfgSmall = 50
    ∧ cfgSmall.api_key = ""
    ∧ cfgSmall.public_rate_limit = 5
    ∧ specSelectedRateLimit cfgSmall = 5
    ∧ rateLimitCalls cfgSmall ≠ specSelectedRateLimit cfgSmall := by
  decide

/-- C4 counterexample: a 200 response whose JSON body lacks the
vulnerabilities envelope key decodes successfully to a page — it is not a
parse error. -/
theorem C4_counterexample :
    fetchDecode "u" ⟨200, Body.json ⟨0, none⟩⟩ = .ok ⟨0, none⟩
    ∧ (⟨0, none⟩ : PageData).vulnerabilities = none := by
  decide

/-- C4 (amended): the fetch returns the decoded page exactly when the status
is 200 and the body parses as JSON (a missing envelope key still decodes,
to an empty record list); every status other than 200 — 2xx included —
yields an HTTP error carrying the status and the full URL; a 200 response
with a non-JSON body yields a parse error carrying the URL. -/
theorem fetchDecode_classification (url : String) (resp : HttpResponse) :
    ((∃ d, fetchDecode url resp = .ok d) ↔ resp.status = 200 ∧ ∃ d, resp.body = Body.json d)
    ∧ (resp.status ≠ 200 → fetchDecode url resp = .error (.httpError resp.status url))
    ∧ (resp.status = 200 → resp.body = Body.notJson →
        fetchDecode url resp = .error (.parseError url)) := by
  obtain ⟨s, b⟩ := resp
  refine ⟨?_, ?_, ?_⟩
  · constructor
    · rintro ⟨d, hd⟩
      unfold fetchDecode at hd
      by_cases hs : s = 200
      · subst hs
        simp at hd
        cases b with
        | json p => exact ⟨rfl, p, rfl⟩
        | notJson => simp [fetchDecode] at hd
      · simp [hs] at hd
    · rintro ⟨hs, d, hb⟩
      subst hs
      subst hb
      exact ⟨d, by simp [fetchDecode]⟩
  · intro hs
    simp [fetchDecode, hs]
  · intro hs hb
    subst hs
    subst hb
    simp [fetchDecode]

theorem fetchDecode_classification_witness :
    fetchDecode "u" ⟨404, Body.notJson⟩ = .error (.httpError 404 "u") :=
  (fetchDecode_classification "u" ⟨404, Body.notJson⟩).2.1 (by decide)

/-- C5 counterexample: an explicit hours override of 0 with a stored
checkpoint of 50000 at now = 100000 yields window start 50000 (the
checkpoint), not now − 0·3600 = 100000: a falsy override does not win over
the checkpoint. -/
theorem C5_counterexample :
    lastModStartDate (some 0) (some 50000) 100000 = 50000
    ∧ (50000 : Int) ≠ 100000 - 0 * 3600 := by
  decide

/-- C5 (amended): the window end is always now; a truthy (non-zero) hours
override H puts the start at now − H hours regardless of any checkpoint; a
falsy override (absent or 0) falls back to the stored checkpoint when one
exists and to now − 24h otherwise; both bounds are rendered by the
fixed-precision second-level UTC formatter. -/
theorem get_updates_window_selection (last_hours last_update_time : Option Int)
    (now_utc : Int) :
    (∀ h, last_hours = some h → h ≠ 0 →
      lastModStartDate last_hours last_update_time now_utc = now_utc - h * 3600)
    ∧ (pyTruthy last_hours = false → ∀ t, last_update_time = some t →
      lastModStartDate last_hours last_update_time now_utc = t)
    ∧ (pyTruthy last_hours = false → last_update_time = none →
      lastModStartDate last_hours last_update_time now_utc = now_utc - 24 * 3600)
    ∧ get_updates_window last_hours last_update_time now_utc
      = (strftimeNvd (lastModStartDate last_hours last_update_time now_utc),
         strftimeNvd now_utc) := by
  refine ⟨?_, ?_, ?_, rfl⟩
  · rintro h rfl hne
    simp [lastModStartDate, pyTruthy, hne]
  · rintro hfalse t rfl
    simp [lastModStartDate, hfalse]
  · rintro hfalse rfl
    simp [lastModStartDate, hfalse]

theorem get_updates_window_selection_witness :
    lastModStartDate (some 2) (some 50000) 100000 = 100000 - 2 * 3600
    ∧ lastModStartDate none (some 50000) 100000 = 50000
    ∧ lastModStartDate none none 100000 = 100000 - 24 * 3600 :=
  ⟨(get_updates_window_selection (some 2) (some 50000) 100000).1 2 rfl (by decide),
   (get_updates_window_selection none (some 50000) 100000).2.1 (by decide) 50000 rfl,
   (get_updates_window_selection none none 100000).2.2.1 (by decide) rfl⟩

/-- C6: the snapshot written at the end of a full load misses the seed page:
with a seed page carrying records 1 and 2 and one later page carrying
record 3, the written list holds only the later page — the records
delivered by the first page are absent. -/
theorem C6_snapshot_misses_seed_page :
    download_all_data_snapshot ⟨3, some [some 1, some 2]⟩ [⟨3, some [some 3]⟩]
      = [some 3]
    ∧ some 1 ∉ download_all_data_snapshot ⟨3, some [some 1, some 2]⟩ [⟨3, some [some 3]⟩] := by
  decide

/-- C7: when the first fetch failure surfaces in the fan-out (all earlier
completions were successes), the run propagates exactly that error instead
of succeeding, and the trace of the pages that completed before the failure
is a prefix of the run trace — their writes stand, nothing is rolled
back. -/
theorem fanout_failure_isolation (pre : List (Except FetchError PageData))
    (e : FetchError) (post : List (Except FetchError PageData))
    (hpre : ∀ x ∈ pre, x.isOk) :
    fanoutError (pre ++ .error e :: post) = some e
    ∧ fanoutTrace pre <+: fanoutTrace (pre ++ .error e :: post) := by
  induction pre with
  | nil => exact ⟨rfl, List.nil_prefix⟩
  | cons x rest ih =>
    have hx := hpre x (List.mem_cons_self x rest)
    have hrest : ∀ y ∈ rest, y.isOk := fun y hy => hpre y (List.mem_cons_of_mem x hy)
    obtain ⟨d, rfl⟩ : ∃ d, x = .ok d := by
      cases x with
      | ok d => exact ⟨d, rfl⟩
      | error _ => simp [Except.isOk, Except.toBool] at hx
    obtain ⟨h1, h2⟩ := ih hrest
    obtain ⟨t, ht⟩ := h2
    refine ⟨h1, ⟨t, ?_⟩⟩
    show (persistPage "init" d ++ fanoutTrace rest) ++ t
      = persistPage "init" d ++ fanoutTrace (rest ++ .error e :: post)
    rw [List.append_assoc, ht]

theorem fanout_failure_isolation_witness :
    fanoutError [.ok pageFive, .error (.httpError 503 "u"), .ok ⟨5, some [some 9]⟩]
      = some (.httpError 503 "u")
    ∧ fanoutTrace [.ok pageFive]
      <+: fanoutTrace [.ok pageFive, .error (.httpError 503 "u"), .ok ⟨5, some [some 9]⟩] :=
  fanout_failure_isolation [.ok pageFive] (.httpError 503 "u") [.ok ⟨5, some [some 9]⟩]
    (by decide)

/-- C8: for a positive page size the computed page count is the ceiling of
totalResults over resultsPerPage — both as Mathlib ceiling division and by
the adjunction that characterises the ceiling — and 5000 results at page
size 2000 give 3 pages, 2 of them fetched after the seed. -/
theorem num_pages_is_ceil :
    (∀ total_results results_per_page, 0 < results_per_page →
      num_pages total_results results_per_page = total_results ⌈/⌉ results_per_page
      ∧ ∀ n, num_pages total_results results_per_page ≤ n
          ↔ total_results ≤ results_per_page * n)
    ∧ num_pages 5000 2000 = 3
    ∧ (download_requests 2000 5000).tail.length = 2 := by
  refine ⟨fun t r hr => ⟨rfl, fun n => ?_⟩, by decide, by decide⟩
  have := ceilDiv_le_iff_le_smul (α := ℕ) (β := ℕ) hr (b := t) (c := n)
  simpa [smul_eq_mul] using this

theorem num_pages_is_ceil_witness :
    num_pages 5000 2000 = 5000 ⌈/⌉ 2000 ∧ (num_pages 5000 2000 ≤ 3 ↔ 5000 ≤ 2000 * 3) :=
  ⟨(num_pages_is_ceil.1 5000 2000 (by decide)).1,
   (num_pages_is_ceil.1 5000 2000 (by decide)).2 3⟩

/-- C9: on a non-empty result set with positive page size, the requests of a
full load are exactly the start indices k · resultsPerPage for
k = 0 .. numPages − 1 (seed at 0 first, then the numPages − 1 submitted
tasks), each page exactly once: nothing skipped, nothing repeated. -/
theorem download_requests_cover (results_per_page total_results : Nat)
    (hr : 0 < results_per_page) (ht : 0 < total_results) :
    download_requests results_per_page total_results
      = (List.range (num_pages total_results results_per_page)).map
          (fun k => k * results_per_page)
    ∧ (download_requests results_per_page total_results).Nodup
    ∧ (download_requests results_per_page total_results).length
      = num_pages total_results results_per_page := by
  have hpos : 0 < num_pages total_results results_per_page := by
    have h1 : results_per_page ≤ total_results + results_per_page - 1 := by omega
    exact Nat.lt_of_lt_of_le Nat.zero_lt_one ((Nat.one_le_div_iff hr).mpr h1)
  obtain ⟨m, hm⟩ : ∃ m, num_pages total_results results_per_page = m + 1 :=
    ⟨num_pages total_results results_per_page - 1, (Nat.succ_pred_eq_of_pos hpos).symm⟩
  have hmain : download_requests results_per_page total_results
      = (List.range (num_pages total_results results_per_page)).map
          (fun k => k * results_per_page) := by
    unfold download_requests
    rw [hm, List.range_succ_eq_map]
    simp [pyRange, List.range'_eq_map_range, List.map_map, Function.comp,
      Nat.add_comm 1]
  refine ⟨hmain, ?_, ?_⟩
  · rw [hmain]
    exact List.Nodup.map (fun a b hab => Nat.eq_of_mul_eq_mul_right hr hab)
      (List.nodup_range _)
  · rw [hmain]
    simp

theorem download_requests_cover_witness :
    download_requests 2000 5000
      = (List.range (num_pages 5000 2000)).map (fun k => k * 2000)
    ∧ (download_requests 2000 5000).Nodup
    ∧ (download_requests 2000 5000).length = num_pages 5000 2000 :=
  download_requests_cover 2000 5000 (by decide) (by decide)

/-- C10: a successfully fetched page whose decoded record list is empty
causes no store operation at all — no insert, no bulk write, no status
update — and the decoded data is still returned to the caller. -/
theorem make_request_empty_page_no_write (step url : String) (resp : HttpResponse)
    (data : PageData) (hfetch : fetchDecode url resp = .ok data)
    (hempty : decodedRecords data = []) :
    make_request step url resp = .ok ([], data) := by
  unfold make_request
  rw [hfetch]
  simp [persistPage, hempty]

theorem make_request_empty_page_no_write_witness :
    make_request "update" "u" ⟨200, Body.json ⟨0, some []⟩⟩ = .ok ([], ⟨0, some []⟩) :=
  make_request_empty_page_no_write "update" "u" ⟨200, Body.json ⟨0, some []⟩⟩
    ⟨0, some []⟩ (by decide) (by decide)
